import Mathlib

/-!
Shallow embedding of the paywall entitlement core:
the entitlement resolver (src/api/src/services/entitlements.ts),
the synchronous finalize writer (src/api/src/handlers/subscriptions.ts),
the webhook reconciler (src/api/src/handlers/webhooks.ts),
the DynamoDB-backed entitlement store and webhook audit table
(src/api/src/services/dynamodb.ts), the per-tenant Stripe client cache
(src/api/src/services/stripe.ts), and the audience filter of the plan
listing handler (src/api/src/handlers/plans.ts).

Conventions: Unix timestamps are Nat; JavaScript strings that may be
undefined are Option String, and JavaScript truthiness on them
(undefined and the empty string are falsy) is modelled by jsTruthy and
jsOr; fallible calls return Except String.
-/

deriving instance DecidableEq for Except

namespace Paywall

/-- Model of the JavaScript expression `a || d` on a possibly-undefined
string `a`: undefined and the empty string are falsy and fall through
to the default. -/
def jsOr (o : Option String) (d : String) : String :=
  match o with
  | none => d
  | some s => if s = "" then d else s

/-- JavaScript truthiness filter on a possibly-undefined string:
keeps the value only when it is defined and nonempty, for modelling
chains such as `a || b || c`. -/
def jsTruthy (o : Option String) : Option String :=
  match o with
  | none => none
  | some s => if s = "" then none else some s

/-- Abstract, injective model of `new Date(t * 1000).toISOString()`.
No claim inspects the textual format of the timestamp, only its
propagation, so the rendering is modelled as the decimal print of the
Unix timestamp. -/
def toISOString (t : Nat) : String :=
  toString t

/-- A Stripe product as seen through `expand: price.product`:
its id plus the two metadata attributes the repository reads
(`metadata.audience` and `metadata.plan_code`). Absent metadata keys
are `none`. -/
structure StripeProduct where
  id : String
  audience : Option String
  plan_code : Option String
deriving DecidableEq, Repr

/-- A subscription line item (`sub.items.data[n]`). The price object is
collapsed to its product; `product = none` models a payload whose
product is not an expanded object. -/
structure SubItem where
  product : Option StripeProduct
deriving DecidableEq, Repr

/-- A Stripe customer: id plus nullable email. -/
structure Customer where
  id : String
  email : Option String
deriving DecidableEq, Repr

/-- A Stripe subscription with the fields the repository reads:
id, owning customer id, status string, current period end, line items,
and the two subscription metadata keys used by the webhook reconciler
(`metadata.paywall_product` and `metadata.user_id`). -/
structure StripeSub where
  id : String
  customer : String
  status : String
  current_period_end : Nat
  items : List SubItem
  metaProduct : Option String := none
  metaUserId : Option String := none
deriving DecidableEq, Repr

/-- The state of a tenant Stripe account: the customer list (queried by
`customers.list` with an email filter) and the subscription list
(queried by `subscriptions.list` with customer and status filters, and
by `subscriptions.retrieve`). Subscriptions held here are fully
expanded. -/
structure StripeData where
  customers : List Customer
  subs : List StripeSub
deriving DecidableEq, Repr

/-- The audience test of `queryStripeEntitlement`
(entitlements.ts line 121): `if (!audience || audience === productId)` —
an absent or empty audience matches anything, otherwise the whole
audience string must equal the product id. -/
def audienceMatches (audience : Option String) (productId : String) : Bool :=
  match jsTruthy audience with
  | none => true
  | some a => a = productId

/-- The record returned by `queryStripeEntitlement`. -/
structure QueryResult where
  hasAccess : Bool
  subscriptionId : Option String := none
  planCode : Option String := none
  status : Option String := none
  currentPeriodEnd : Option String := none
deriving DecidableEq, Repr

/-- Inner loop of `queryStripeEntitlement` over one subscription's line
items (entitlements.ts lines 116-130): first matching item wins and
yields the access record; `plan_code` metadata falls back to the
product id under JavaScript truthiness. -/
def matchItems (sub : StripeSub) (productId : String) :
    List SubItem → Option QueryResult
  | [] => none
  | item :: rest =>
    if audienceMatches (item.product.bind (fun p => p.audience)) productId then
      some { hasAccess := true
             subscriptionId := some sub.id
             planCode := jsTruthy (item.product.bind (fun p => p.plan_code))
               <|> (item.product.map (fun p => p.id))
             status := some sub.status
             currentPeriodEnd := some (toISOString sub.current_period_end) }
    else matchItems sub productId rest

/-- Outer loop of `queryStripeEntitlement` over the concatenated
active and trialing subscription lists (entitlements.ts line 115):
first subscription with a matching line item wins; no match means no
access. -/
def matchSubs (productId : String) : List StripeSub → QueryResult
  | [] => { hasAccess := false }
  | sub :: rest =>
    match matchItems sub productId sub.items with
    | some r => r
    | none => matchSubs productId rest

/-- `queryStripeEntitlement(stripe, email, productId)`
(entitlements.ts lines 79-134): look up the customer by email with
`limit: 1`; with no customer, no access after one provider call;
otherwise list the active and the trialing subscriptions (two further
provider calls) and scan them in provider return order. The second
component counts Stripe API calls made. -/
def queryStripeEntitlement (s : StripeData) (email productId : String) :
    QueryResult × Nat :=
  match (s.customers.filter (fun c => c.email == some email)).take 1 with
  | [] => ({ hasAccess := false }, 1)
  | customer :: _ =>
    let activeSubs := s.subs.filter
      (fun sub => sub.customer == customer.id && sub.status == "active")
    let trialingSubs := s.subs.filter
      (fun sub => sub.customer == customer.id && sub.status == "trialing")
    (matchSubs productId (activeSubs ++ trialingSubs), 3)

/-- Character-list splitter behind the model of
`audience.split(",")`: splits on every comma; the empty list splits to
one empty group. -/
def splitCommas : List Char → List (List Char)
  | [] => [[]]
  | c :: rest =>
    let r := splitCommas rest
    if c = ',' then [] :: r
    else match r with
      | [] => [[c]]
      | g :: gs => (c :: g) :: gs

/-- Model of the JavaScript `audience.split(",")`. -/
def jsSplitComma (s : String) : List String :=
  (splitCommas s.toList).map (fun l => String.mk l)

/-- Model of the JavaScript `a.trim()`: strips whitespace from both
ends. -/
def jsTrim (s : String) : String :=
  String.mk (((s.toList.dropWhile (fun c => c.isWhitespace)).reverse.dropWhile
    (fun c => c.isWhitespace)).reverse)

/-- The audience filter of the plan listing handler
(plans.ts lines 51-57): a truthy audience metadata string is split on
commas, entries are trimmed, and the plan is kept iff the product id is
among the entries; an absent or empty audience keeps the plan. -/
def planAudienceFilter (audience : Option String) (productId : String) : Bool :=
  match jsTruthy audience with
  | none => true
  | some a => ((jsSplitComma a).map jsTrim).contains productId

/-- An entitlement cache row (types/index.ts `EntitlementCache`):
partition key `tenantId#productId`, row key `userId`, the access
decision, optional subscription detail, and the absolute expiry `ttl`
in Unix seconds. -/
structure EntitlementCache where
  tenantProductKey : String
  userId : String
  hasAccess : Bool
  subscriptionId : Option String := none
  planCode : Option String := none
  status : Option String := none
  currentPeriodEnd : Option String := none
  userEmail : Option String := none
  ttl : Nat
deriving DecidableEq, Repr

/-- The entitlement cache table plus a counter of `PutItem` calls, used
to state how many store writes an operation performs. -/
structure Store where
  rows : List EntitlementCache
  writes : Nat
deriving DecidableEq, Repr

/-- `db.getEntitlementCache(tenantId, productId, userId)`
(dynamodb.ts lines 220-233): point read keyed by
(`tenantId#productId`, `userId`). -/
def getEntitlementCache (st : Store) (tenantId productId userId : String) :
    Option EntitlementCache :=
  st.rows.find? (fun r =>
    r.tenantProductKey == tenantId ++ "#" ++ productId && r.userId == userId)

/-- `db.setEntitlementCache(cache)` (dynamodb.ts lines 235-242):
unconditional `PutItem`, a full overwrite of the row with the same key.
The write counter increases by one. -/
def setEntitlementCache (st : Store) (e : EntitlementCache) : Store :=
  { rows := e :: st.rows.filter (fun r =>
      !(r.tenantProductKey == e.tenantProductKey && r.userId == e.userId))
    writes := st.writes + 1 }

/-- `ACTIVE_TTL` (entitlements.ts line 6): 5 minutes, in seconds. The
finalize handler (subscriptions.ts line 81) and the webhook handler
(webhooks.ts line 9) define the same constant with the same value. -/
def ACTIVE_TTL : Nat := 5 * 60

/-- `INACTIVE_TTL` (entitlements.ts line 7): 1 minute, in seconds. -/
def INACTIVE_TTL : Nat := 60

/-- The subscription detail in a `checkEntitlement` result. -/
structure SubscriptionInfo where
  status : String
  planCode : String
  currentPeriodEnd : String
deriving DecidableEq, Repr

/-- The value `checkEntitlement` resolves with. -/
structure CheckResult where
  hasAccess : Bool
  subscription : Option SubscriptionInfo
deriving DecidableEq, Repr

/-- The ways `checkEntitlement` can throw: the Stripe client or query
failed (the provider path threw before any result was computed), or
the write-back `setEntitlementCache` threw. -/
inductive CheckError where
  | provider (msg : String)
  | storeWrite
deriving DecidableEq, Repr

/-- The full outcome of one `checkEntitlement` call: the returned value
or thrown error, the state of the entitlement store afterwards, and
how many Stripe API calls were made. -/
structure CheckOutcome where
  result : Except CheckError CheckResult
  store : Store
  providerCalls : Nat
deriving Repr

/-- The slow path of `checkEntitlement` (entitlements.ts lines 43-73):
obtain the Stripe client and run the query (a thrown provider failure
propagates with no store write), pick the TTL from the computed
decision, write the row back (a thrown write failure propagates), and
resolve with the computed decision, defaulting absent or empty fields
as the source does (`result.status || "active"` and so on).
The provider argument is the tenant Stripe account, or the error the
provider path throws with; `storeWriteOk = false` makes the write-back
throw. -/
def checkEntitlementSlow (now : Nat) (provider : Except String StripeData)
    (storeWriteOk : Bool) (st : Store)
    (tenantId productId userId userEmail : String) : CheckOutcome :=
  match provider with
  | .error e => { result := .error (.provider e), store := st, providerCalls := 1 }
  | .ok sdata =>
    let q := queryStripeEntitlement sdata userEmail productId
    let result := q.1
    let ttlSeconds := if result.hasAccess then ACTIVE_TTL else INACTIVE_TTL
    let cacheEntry : EntitlementCache :=
      { tenantProductKey := tenantId ++ "#" ++ productId
        userId := userId
        hasAccess := result.hasAccess
        subscriptionId := result.subscriptionId
        planCode := result.planCode
        status := result.status
        currentPeriodEnd := result.currentPeriodEnd
        userEmail := some userEmail
        ttl := now + ttlSeconds }
    if storeWriteOk then
      { result := .ok
          { hasAccess := result.hasAccess
            subscription := if result.hasAccess then
                some { status := jsOr result.status "active"
                       planCode := jsOr result.planCode ""
                       currentPeriodEnd := jsOr result.currentPeriodEnd "" }
              else none }
        store := setEntitlementCache st cacheEntry
        providerCalls := q.2 }
    else
      { result := .error .storeWrite, store := st, providerCalls := q.2 }

/-- `checkEntitlement(tenantId, productId, userId, userEmail)`
(entitlements.ts lines 15-74): read the cache row; when present and
`cached.ttl > now` resolve from the row alone (defaulting absent or
empty fields as the source does, and omitting subscription detail when
`hasAccess` is false); otherwise fall through to the slow path. -/
def checkEntitlement (now : Nat) (provider : Except String StripeData)
    (storeWriteOk : Bool) (st : Store)
    (tenantId productId userId userEmail : String) : CheckOutcome :=
  match getEntitlementCache st tenantId productId userId with
  | some cached =>
    if now < cached.ttl then
      { result := .ok
          { hasAccess := cached.hasAccess
            subscription := if cached.hasAccess then
                some { status := jsOr cached.status "active"
                       planCode := jsOr cached.planCode ""
                       currentPeriodEnd := jsOr cached.currentPeriodEnd "" }
              else none }
        store := st
        providerCalls := 0 }
    else
      checkEntitlementSlow now provider storeWriteOk st tenantId productId userId userEmail
  | none =>
      checkEntitlementSlow now provider storeWriteOk st tenantId productId userId userEmail

/-- The subscription object returned by `stripe.subscriptions.create`
in the finalize handler, restricted to the fields the cache write
reads. -/
structure CreatedSubscription where
  id : String
  status : String
  current_period_end : Nat
deriving DecidableEq, Repr

/-- The synchronous entitlement write of the finalize handler
(subscriptions.ts lines 78-97), performed after the subscription is
created and before the handler returns success: `hasAccess := true`,
the 5-minute window, `userId := user_id || customerEmail`, and the
subscription and plan fields taken from the just-created subscription
object. If this write throws, the whole finalize request fails, so a
successful finalize implies this store state. -/
def finalizeEntitlementWrite (now : Nat) (tenant_id product_id : String)
    (user_id : Option String) (customerEmail planCode : String)
    (sub : CreatedSubscription) (st : Store) : Store :=
  setEntitlementCache st
    { tenantProductKey := tenant_id ++ "#" ++ product_id
      userId := jsOr user_id customerEmail
      hasAccess := true
      subscriptionId := some sub.id
      planCode := some planCode
      status := some sub.status
      currentPeriodEnd := some (toISOString sub.current_period_end)
      userEmail := some customerEmail
      ttl := now + ACTIVE_TTL }

/-- `stripe.customers.retrieve(id)`: throws when the id does not
resolve. -/
def customersRetrieve (s : StripeData) (id : String) : Except String Customer :=
  match s.customers.find? (fun c => c.id == id) with
  | some c => .ok c
  | none => .error ("No such customer: " ++ id)

/-- `stripe.subscriptions.retrieve(id, expand)`: throws when the id
does not resolve; the result is fully expanded. -/
def subscriptionsRetrieve (s : StripeData) (id : String) : Except String StripeSub :=
  match s.subs.find? (fun x => x.id == id) with
  | some x => .ok x
  | none => .error ("No such subscription: " ++ id)

/-- `updateEntitlementFromSubscription` (webhooks.ts lines 136-184):
retrieve the customer (a thrown retrieve propagates), return with no
write when the customer email is falsy, re-fetch the subscription when
the event payload carries no expanded product on its first line item,
and write a row with `hasAccess := status in (active, trialing)`,
product id `metadata.paywall_product || audience || "*"`, user id
`metadata.user_id || email`, and always `ttl := now + ACTIVE_TTL`. -/
def updateEntitlementFromSubscription (now : Nat) (tenantId : String)
    (sdata : StripeData) (subscription : StripeSub) (st : Store) :
    Except String Store :=
  match customersRetrieve sdata subscription.customer with
  | .error e => .error e
  | .ok customer =>
    match jsTruthy customer.email with
    | none => .ok st
    | some email =>
      match (if (subscription.items.head?.bind (fun i => i.product)).isSome then
              .ok subscription
             else subscriptionsRetrieve sdata subscription.id :
             Except String StripeSub) with
      | .error e => .error e
      | .ok fullSub =>
        let stripeProduct := fullSub.items.head?.bind (fun i => i.product)
        let planCode := jsOr
          (jsTruthy (stripeProduct.bind (fun p => p.plan_code))
            <|> stripeProduct.map (fun p => p.id)) ""
        let productId := jsOr
          (jsTruthy subscription.metaProduct
            <|> jsTruthy (stripeProduct.bind (fun p => p.audience))) "*"
        let hasAccess :=
          subscription.status == "active" || subscription.status == "trialing"
        .ok (setEntitlementCache st
          { tenantProductKey := tenantId ++ "#" ++ productId
            userId := jsOr subscription.metaUserId email
            hasAccess := hasAccess
            subscriptionId := some subscription.id
            planCode := some planCode
            status := some subscription.status
            currentPeriodEnd := some (toISOString subscription.current_period_end)
            userEmail := some email
            ttl := now + ACTIVE_TTL })

/-- `revokeEntitlementFromSubscription` (webhooks.ts lines 189-229):
same customer retrieval, email guard, and target-row resolution as the
update path, but the written row has `hasAccess := false`, carries no
plan code or period end, and uses the 1-minute window
(`ttl := now + 60`). -/
def revokeEntitlementFromSubscription (now : Nat) (tenantId : String)
    (sdata : StripeData) (subscription : StripeSub) (st : Store) :
    Except String Store :=
  match customersRetrieve sdata subscription.customer with
  | .error e => .error e
  | .ok customer =>
    match jsTruthy customer.email with
    | none => .ok st
    | some email =>
      match (if (subscription.items.head?.bind (fun i => i.product)).isSome then
              .ok subscription
             else subscriptionsRetrieve sdata subscription.id :
             Except String StripeSub) with
      | .error e => .error e
      | .ok fullSub =>
        let stripeProduct := fullSub.items.head?.bind (fun i => i.product)
        let productId := jsOr
          (jsTruthy subscription.metaProduct
            <|> jsTruthy (stripeProduct.bind (fun p => p.audience))) "*"
        .ok (setEntitlementCache st
          { tenantProductKey := tenantId ++ "#" ++ productId
            userId := jsOr subscription.metaUserId email
            hasAccess := false
            subscriptionId := some subscription.id
            status := some subscription.status
            userEmail := some email
            ttl := now + 60 })

/-- The `data.object` of a webhook event: a subscription object, an
invoice object (restricted to its nullable subscription reference), or
anything else. -/
inductive EventObject where
  | sub (s : StripeSub)
  | invoice (subscription : Option String)
  | other
deriving DecidableEq, Repr

/-- A verified Stripe webhook event. -/
structure StripeEvent where
  id : String
  type : String
  object : EventObject
deriving DecidableEq, Repr

/-- `processWebhookEvent` (webhooks.ts lines 97-131): dispatch on the
event type; created and updated go to the update path, deleted to the
revoke path, `invoice.payment_failed` re-fetches the referenced
subscription (when the reference is truthy) and runs the update path,
and any other event type is ignored. -/
def processWebhookEvent (now : Nat) (tenantId : String) (sdata : StripeData)
    (event : StripeEvent) (st : Store) : Except String Store :=
  if event.type = "customer.subscription.created"
      ∨ event.type = "customer.subscription.updated" then
    match event.object with
    | .sub s => updateEntitlementFromSubscription now tenantId sdata s st
    | _ => .ok st
  else if event.type = "customer.subscription.deleted" then
    match event.object with
    | .sub s => revokeEntitlementFromSubscription now tenantId sdata s st
    | _ => .ok st
  else if event.type = "invoice.payment_failed" then
    match event.object with
    | .invoice subId =>
      match jsTruthy subId with
      | some sid =>
        match subscriptionsRetrieve sdata sid with
        | .error e => .error e
        | .ok sub => updateEntitlementFromSubscription now tenantId sdata sub st
      | none => .ok st
    | _ => .ok st
  else .ok st

/-- A webhook audit record (types/index.ts `WebhookAudit`), keyed by
`tenantId#eventId`. -/
structure WebhookAudit where
  tenantEventKey : String
  tenantId : String
  eventType : String
  processedAt : String
  result : String
  errorMessage : Option String := none
  ttl : Nat
deriving DecidableEq, Repr

/-- `db.getWebhookAudit(tenantId, eventId)` (dynamodb.ts lines
260-272): point read keyed by `tenantId#eventId`. -/
def getWebhookAudit (audits : List WebhookAudit) (tenantId eventId : String) :
    Option WebhookAudit :=
  audits.find? (fun a => a.tenantEventKey == tenantId ++ "#" ++ eventId)

/-- `db.createWebhookAudit(audit)` (dynamodb.ts lines 274-282):
`PutItem` guarded by `attribute_not_exists(tenantEventKey)` — throws
when a record with the same key already exists. -/
def createWebhookAudit (audits : List WebhookAudit) (a : WebhookAudit) :
    Except String (List WebhookAudit) :=
  match audits.find? (fun x => x.tenantEventKey == a.tenantEventKey) with
  | some _ => .error "ConditionalCheckFailedException"
  | none => .ok (a :: audits)

/-- `AUDIT_TTL` (webhooks.ts line 10): 30 days, in seconds. -/
def AUDIT_TTL : Nat := 30 * 24 * 60 * 60

/-- The HTTP response of the webhook handler, restricted to the fields
the handler sets: status code, the `received` and `duplicate` flags of
the 200 bodies, and the error message of the 4xx and 5xx bodies. -/
structure HttpResponse where
  status : Nat
  received : Bool := false
  duplicate : Bool := false
  errorMsg : Option String := none
deriving DecidableEq, Repr

/-- The durable state the webhook handler touches: the entitlement
store and the webhook audit table. -/
structure WebhookWorld where
  store : Store
  audits : List WebhookAudit
deriving DecidableEq, Repr

/-- The webhook handler (webhooks.ts lines 16-91) for a request with a
path tenant id: refuse with 400 when the tenant has no webhook secret
or the signature does not verify (no state change in either case);
short-circuit a delivery whose `(tenant, eventId)` audit record already
exists to `200 received duplicate` with no state change; otherwise run
`processWebhookEvent` catching any throw as `result := "error"`, write
the audit record, and return `200 received`. A throw from the audit
write itself is caught by the outer handler as a 500 after any
entitlement write has already landed. -/
def webhookHandler (now : Nat) (tenantId : String) (hasSecret signatureValid : Bool)
    (sdata : StripeData) (event : StripeEvent) (w : WebhookWorld) :
    HttpResponse × WebhookWorld :=
  if !hasSecret then
    ({ status := 400, errorMsg := some "Webhook not configured for this tenant" }, w)
  else if !signatureValid then
    ({ status := 400, errorMsg := some "Invalid signature" }, w)
  else
    match getWebhookAudit w.audits tenantId event.id with
    | some _ => ({ status := 200, received := true, duplicate := true }, w)
    | none =>
      let processed := processWebhookEvent now tenantId sdata event w.store
      let outcome :=
        match processed with
        | .ok st2 => (st2, "success", (none : Option String))
        | .error msg => (w.store, "error", some msg)
      let audit : WebhookAudit :=
        { tenantEventKey := tenantId ++ "#" ++ event.id
          tenantId := tenantId
          eventType := event.type
          processedAt := toISOString now
          result := outcome.2.1
          errorMessage := outcome.2.2
          ttl := now + AUDIT_TTL }
      match createWebhookAudit w.audits audit with
      | .ok audits2 =>
        ({ status := 200, received := true },
         { store := outcome.1, audits := audits2 })
      | .error _ =>
        ({ status := 500, errorMsg := some "Internal server error" },
         { store := outcome.1, audits := w.audits })

/-- A constructed per-tenant Stripe client, identified by the secret
key it was built from, plus its cache expiry (stripe.ts `CachedClient`,
in milliseconds). -/
structure CachedClient where
  secretKey : String
  expiry : Nat
deriving DecidableEq, Repr

/-- The module-level `clientCache` map of stripe.ts, tenant id to
cached client. -/
structure ClientCache where
  entries : List (String × CachedClient)
deriving DecidableEq, Repr

/-- `CACHE_TTL` (stripe.ts line 10): 5 minutes, in milliseconds. -/
def CACHE_TTL : Nat := 5 * 60 * 1000

/-- The miss path of `getStripeClient` (stripe.ts lines 22-29): read
the tenant secret key (throw when absent), construct a client from it,
and cache it for `CACHE_TTL`. -/
def buildStripeClient (now : Nat) (secrets : List (String × String))
    (cache : ClientCache) (tenantId : String) :
    Except String (CachedClient × ClientCache) :=
  match secrets.find? (fun kv => kv.1 == tenantId) with
  | none => .error ("No Stripe credentials configured for tenant " ++ tenantId)
  | some kv =>
    let client : CachedClient := { secretKey := kv.2, expiry := now + CACHE_TTL }
    .ok (client,
      { entries := (tenantId, client) ::
          cache.entries.filter (fun e => !(e.1 == tenantId)) })

/-- `getStripeClient(tenantId)` (stripe.ts lines 16-30): an unexpired
cached client is returned as is; otherwise the client is rebuilt from
the currently stored secret key. -/
def getStripeClient (now : Nat) (secrets : List (String × String))
    (cache : ClientCache) (tenantId : String) :
    Except String (CachedClient × ClientCache) :=
  match cache.entries.find? (fun kv => kv.1 == tenantId) with
  | some kv =>
    if now < kv.2.expiry then .ok (kv.2, cache)
    else buildStripeClient now secrets cache tenantId
  | none => buildStripeClient now secrets cache tenantId

/-- `invalidateStripeClient(tenantId)` (stripe.ts lines 36-38):
drop the cached client for the tenant. The repository defines this
function but contains no call to it. -/
def invalidateStripeClient (cache : ClientCache) (tenantId : String) :
    ClientCache :=
  { entries := cache.entries.filter (fun e => !(e.1 == tenantId)) }

/-- The effect of the credentials `setHandler` (credentials.ts lines
11-80) on the secret-key table and the client cache: after validation
it stores the new secret key (`creds.storeCredentials`) and updates
the tenant record; it performs no client-cache operation, so the cache
component of the state is returned untouched. -/
def setCredentialsEffect (tenantId newSecretKey : String)
    (secrets : List (String × String)) (cache : ClientCache) :
    List (String × String) × ClientCache :=
  ((tenantId, newSecretKey) :: secrets.filter (fun kv => !(kv.1 == tenantId)),
   cache)

/-- The effect of the credentials `deleteHandler` (credentials.ts lines
114-144) on the secret-key table and the client cache: it deletes the
stored credentials and clears the tenant record; it performs no
client-cache operation, so the cache component of the state is
returned untouched. -/
def deleteCredentialsEffect (tenantId : String)
    (secrets : List (String × String)) (cache : ClientCache) :
    List (String × String) × ClientCache :=
  (secrets.filter (fun kv => !(kv.1 == tenantId)), cache)

/-- A stored row is absent or expired at `now` — the condition under
which `checkEntitlement` takes the slow path. -/
def cacheStale (st : Store) (tenantId productId userId : String) (now : Nat) :
    Prop :=
  match getEntitlementCache st tenantId productId userId with
  | none => True
  | some c => c.ttl ≤ now

instance (st : Store) (t p u : String) (now : Nat) :
    Decidable (cacheStale st t p u now) := by
  unfold cacheStale
  match getEntitlementCache st t p u with
  | none => exact inferInstanceAs (Decidable True)
  | some c => exact inferInstanceAs (Decidable (c.ttl ≤ now))

/-! Concrete fixtures used to evaluate the embedded code at specific
inputs. -/

/-- An empty entitlement store. -/
def emptyStore : Store := { rows := [], writes := 0 }

/-- A Stripe product whose audience metadata is the comma-separated
list `a,b` — the bundle shape that the plan listing handler documents
and supports. -/
def bundleProduct : StripeProduct :=
  { id := "prod_1"
    audience := some "a,b"
    plan_code := some "pro" }

/-- An active subscription of customer `cus_1` on the bundle plan. -/
def bundleSub : StripeSub :=
  { id := "sub_1"
    customer := "cus_1"
    status := "active"
    current_period_end := 7
    items := [{ product := some bundleProduct }] }

/-- A tenant Stripe account holding the bundle subscription. -/
def bundleData : StripeData :=
  { customers := [{ id := "cus_1", email := some "user@x" }]
    subs := [bundleSub] }

/-- A fresh entitlement row with `hasAccess = true` whose optional
`status` field is absent. -/
def noStatusRow : EntitlementCache :=
  { tenantProductKey := "t#p"
    userId := "u"
    hasAccess := true
    planCode := some "pro"
    currentPeriodEnd := some "2024"
    ttl := 100 }

/-- A store holding only `noStatusRow`. -/
def noStatusStore : Store := { rows := [noStatusRow], writes := 0 }

/-- A subscription in status `past_due`, carrying explicit product and
user metadata. -/
def pastDueSub : StripeSub :=
  { id := "sub_1"
    customer := "cus_1"
    status := "past_due"
    current_period_end := 7
    items := [{ product := some { id := "prod_1"
                                  audience := some "p1"
                                  plan_code := some "pro" } }]
    metaProduct := some "p1"
    metaUserId := some "u1" }

/-- A tenant Stripe account holding the past-due subscription. -/
def pastDueData : StripeData :=
  { customers := [{ id := "cus_1", email := some "e@x" }]
    subs := [pastDueSub] }

/-- An active subscription on a plan whose audience is exactly `p1`. -/
def proData : StripeData :=
  { customers := [{ id := "cus_1", email := some "e@x" }]
    subs := [{ id := "sub_2"
               customer := "cus_1"
               status := "active"
               current_period_end := 9
               items := [{ product := some { id := "prod_2"
                                             audience := some "p1"
                                             plan_code := some "pro" } }] }] }

/-- A `customer.subscription.created` event carrying the past-due
subscription. -/
def createdEvent : StripeEvent :=
  { id := "evt_1"
    type := "customer.subscription.created"
    object := .sub pastDueSub }

/-- A subscription whose customer id resolves to nothing, so
processing the event that carries it throws. -/
def orphanSub : StripeSub :=
  { id := "sub_3"
    customer := "cus_missing"
    status := "active"
    current_period_end := 7
    items := [] }

/-- A `customer.subscription.created` event whose processing throws
(the customer retrieval fails). -/
def orphanEvent : StripeEvent :=
  { id := "evt_2"
    type := "customer.subscription.created"
    object := .sub orphanSub }

/-- A webhook world with no rows and no audit records. -/
def emptyWorld : WebhookWorld := { store := emptyStore, audits := [] }

/-- A canceled subscription, as carried by a
`customer.subscription.deleted` event. -/
def revokedSub : StripeSub :=
  { id := "sub_4"
    customer := "cus_1"
    status := "canceled"
    current_period_end := 7
    items := [{ product := some { id := "prod_1"
                                  audience := some "p1"
                                  plan_code := some "pro" } }]
    metaProduct := some "p1"
    metaUserId := some "u1" }

/-- A tenant Stripe account holding the canceled subscription. -/
def revokedData : StripeData :=
  { customers := [{ id := "cus_1", email := some "e@x" }]
    subs := [revokedSub] }

/-- The row the revoke path writes for `revokedSub` at time 0: no
access, stored status `canceled`, 1-minute window. -/
def revokedRow : EntitlementCache :=
  { tenantProductKey := "t#p1"
    userId := "u1"
    hasAccess := false
    subscriptionId := some "sub_4"
    status := some "canceled"
    userEmail := some "e@x"
    ttl := 60 }

/-- The store after that revoke write. -/
def revokedStore : Store := { rows := [revokedRow], writes := 1 }

/-- The row the webhook update path writes for `pastDueSub` at time
1000: no access, yet the 5-minute window. -/
def pastDueRow : EntitlementCache :=
  { tenantProductKey := "t1#p1"
    userId := "u1"
    hasAccess := false
    subscriptionId := some "sub_1"
    planCode := some "pro"
    status := some "past_due"
    currentPeriodEnd := some "7"
    userEmail := some "e@x"
    ttl := 1000 + ACTIVE_TTL }

/-- The subscription object created by a concrete finalize call. -/
def createdSub : CreatedSubscription :=
  { id := "sub_9"
    status := "active"
    current_period_end := 42 }

/-- The Stripe client built for tenant `t1` from the old secret key at
time 0. -/
def oldClient : CachedClient := { secretKey := "sk_old", expiry := CACHE_TTL }

/-- The client cache after that construction. -/
def oldClientCache : ClientCache := { entries := [("t1", oldClient)] }

end Paywall

/-! Helper lemmas shared by the claim theorems. -/

namespace Paywall

/-- Reading back the key just written returns the written row. -/
theorem getEntitlementCache_set_same (st : Store) (c : EntitlementCache)
    (t p u : String) (h1 : c.tenantProductKey = t ++ "#" ++ p) (h2 : c.userId = u) :
    getEntitlementCache (setEntitlementCache st c) t p u = some c := by
  simp [getEntitlementCache, setEntitlementCache, List.find?, h1, h2]

/-- On an absent or expired row, `checkEntitlement` is its slow path. -/
theorem checkEntitlement_stale (now : Nat) (provider : Except String StripeData)
    (wOk : Bool) (st : Store) (t p u e : String) (hstale : cacheStale st t p u now) :
    checkEntitlement now provider wOk st t p u e =
      checkEntitlementSlow now provider wOk st t p u e := by
  unfold checkEntitlement
  unfold cacheStale at hstale
  cases hg : getEntitlementCache st t p u with
  | none => rfl
  | some c =>
    rw [hg] at hstale
    simp only []
    rw [if_neg (Nat.not_lt.mpr hstale)]

/-- The store the slow path leaves behind when the provider succeeds
and the write-back succeeds: the old store plus the one written row. -/
theorem checkEntitlementSlow_ok_store (now : Nat) (sd : StripeData) (st : Store)
    (t p u e : String) :
    (checkEntitlementSlow now (.ok sd) true st t p u e).store =
      setEntitlementCache st
        { tenantProductKey := t ++ "#" ++ p
          userId := u
          hasAccess := (queryStripeEntitlement sd e p).1.hasAccess
          subscriptionId := (queryStripeEntitlement sd e p).1.subscriptionId
          planCode := (queryStripeEntitlement sd e p).1.planCode
          status := (queryStripeEntitlement sd e p).1.status
          currentPeriodEnd := (queryStripeEntitlement sd e p).1.currentPeriodEnd
          userEmail := some e
          ttl := now + (if (queryStripeEntitlement sd e p).1.hasAccess then ACTIVE_TTL
            else INACTIVE_TTL) } := rfl

/-- A present, unexpired row makes `checkEntitlement` resolve from the
row alone: no provider call, no store change, fields defaulted as the
source defaults them. -/
theorem check_fresh_hit (now : Nat) (provider : Except String StripeData)
    (wOk : Bool) (st : Store) (t p u e : String) (row : EntitlementCache)
    (hget : getEntitlementCache st t p u = some row) (hfresh : now < row.ttl) :
    checkEntitlement now provider wOk st t p u e =
      { result := .ok { hasAccess := row.hasAccess
                        subscription := if row.hasAccess then
                            some { status := jsOr row.status "active"
                                   planCode := jsOr row.planCode ""
                                   currentPeriodEnd := jsOr row.currentPeriodEnd "" }
                          else none }
        store := st
        providerCalls := 0 } := by
  unfold checkEntitlement
  rw [hget]
  simp [hfresh]

/-- A successful webhook update write either skips (falsy customer
email) or performs one `setEntitlementCache` whose row always carries
the 5-minute window. -/
theorem update_ok_cases (now : Nat) (t : String) (sd : StripeData) (s : StripeSub)
    (st st2 : Store) (h : updateEntitlementFromSubscription now t sd s st = .ok st2) :
    st2 = st ∨ ∃ c, st2 = setEntitlementCache st c ∧ c.ttl = now + ACTIVE_TTL := by
  unfold updateEntitlementFromSubscription at h
  split at h
  · exact absurd h (by simp)
  · split at h
    · left; injection h with h; exact h.symm
    · split at h
      · exact absurd h (by simp)
      · right
        injection h with h
        exact ⟨_, h.symm, rfl⟩

/-- A successful webhook revoke write either skips (falsy customer
email) or performs one `setEntitlementCache` whose row has no access
and the 1-minute window. -/
theorem revoke_ok_cases (now : Nat) (t : String) (sd : StripeData) (s : StripeSub)
    (st st2 : Store) (h : revokeEntitlementFromSubscription now t sd s st = .ok st2) :
    st2 = st ∨ ∃ c, st2 = setEntitlementCache st c ∧ c.hasAccess = false ∧ c.ttl = now + 60 := by
  unfold revokeEntitlementFromSubscription at h
  split at h
  · exact absurd h (by simp)
  · split at h
    · left; injection h with h; exact h.symm
    · split at h
      · exact absurd h (by simp)
      · right
        injection h with h
        exact ⟨_, h.symm, rfl, rfl⟩

/-- Each store write bumps the write counter by exactly one. -/
theorem setEntitlementCache_writes (st : Store) (c : EntitlementCache) :
    (setEntitlementCache st c).writes = st.writes + 1 := rfl

/-- Successful webhook event processing performs at most one
entitlement write. -/
theorem processWebhookEvent_writes (now : Nat) (t : String) (sd : StripeData)
    (ev : StripeEvent) (st st2 : Store)
    (h : processWebhookEvent now t sd ev st = .ok st2) :
    st2.writes ≤ st.writes + 1 := by
  have hupd : ∀ s, updateEntitlementFromSubscription now t sd s st = .ok st2 →
      st2.writes ≤ st.writes + 1 := by
    intro s hs
    rcases update_ok_cases now t sd s st st2 hs with h1 | ⟨c, h1, _⟩
    · simp [h1]
    · simp [h1, setEntitlementCache_writes]
  have hrev : ∀ s, revokeEntitlementFromSubscription now t sd s st = .ok st2 →
      st2.writes ≤ st.writes + 1 := by
    intro s hs
    rcases revoke_ok_cases now t sd s st st2 hs with h1 | ⟨c, h1, _, _⟩
    · simp [h1]
    · simp [h1, setEntitlementCache_writes]
  unfold processWebhookEvent at h
  repeat' split at h
  all_goals first
    | exact hupd _ h
    | exact hrev _ h
    | exact Except.noConfusion h
    | (cases h; exact Nat.le_succ _)

/-- A list on which `find?` fails filters to nothing. -/
theorem find?_none_filter_nil {α : Type} (p : α → Bool) (l : List α)
    (h : l.find? p = none) : l.filter p = [] := by
  rw [List.filter_eq_nil_iff]
  rw [List.find?_eq_none] at h
  exact h

/-- A first delivery of a not-yet-audited event with a configured
secret and a valid signature returns `200 received`, pushes exactly
one audit record with the key of the event, and performs at most one
entitlement write. -/
theorem webhookHandler_fresh (now : Nat) (t : String) (sd : StripeData)
    (ev : StripeEvent) (w : WebhookWorld)
    (hfresh : getWebhookAudit w.audits t ev.id = none) :
    ∃ rec st2,
      webhookHandler now t true true sd ev w =
        ({ status := 200, received := true }, { store := st2, audits := rec :: w.audits }) ∧
      rec.tenantEventKey = t ++ "#" ++ ev.id ∧
      st2.writes ≤ w.store.writes + 1 := by
  have hnone : w.audits.find? (fun x => x.tenantEventKey == t ++ "#" ++ ev.id) = none := hfresh
  unfold webhookHandler
  rw [hfresh]
  cases hp : processWebhookEvent now t sd ev w.store with
  | ok st2 =>
    refine ⟨{ tenantEventKey := t ++ "#" ++ ev.id, tenantId := t, eventType := ev.type,
              processedAt := toISOString now, result := "success", errorMessage := none,
              ttl := now + AUDIT_TTL },
            st2, ?_, rfl, processWebhookEvent_writes _ _ _ _ _ _ hp⟩
    simp only [hp, createWebhookAudit, hnone]
    rfl
  | error msg =>
    refine ⟨{ tenantEventKey := t ++ "#" ++ ev.id, tenantId := t, eventType := ev.type,
              processedAt := toISOString now, result := "error", errorMessage := some msg,
              ttl := now + AUDIT_TTL },
            w.store, ?_, rfl, Nat.le_succ _⟩
    simp only [hp, createWebhookAudit, hnone]
    rfl

end Paywall

/-! Claim theorems. -/

namespace Paywall

/-- Claim C1. The claim states that in entitlement resolution a plan
whose audience metadata is a comma-separated list such as `a,b` grants
access exactly to the product ids appearing as entries of that list,
with whitespace ignored. The code evaluated at that input shows
otherwise: `queryStripeEntitlement` compares the whole audience string
for equality, so the bundle plan grants access to neither `a` nor `b`
but does grant access to the literal product id `a,b` — while the plan
listing handler of the same repository splits and trims the same
metadata and lists the bundle plan for both `a` and `b`. -/
theorem audience_comma_list_not_split_in_entitlement_query :
    (queryStripeEntitlement bundleData "user@x" "a").1.hasAccess = false ∧
    (queryStripeEntitlement bundleData "user@x" "b").1.hasAccess = false ∧
    (queryStripeEntitlement bundleData "user@x" "a,b").1.hasAccess = true ∧
    planAudienceFilter bundleProduct.audience "a" = true ∧
    planAudienceFilter bundleProduct.audience "b" = true ∧
    planAudienceFilter (some " a , b ") "a" = true := by decide

/-- Claim C2, counterexample. The claim says a fresh row is returned
with its subscription fields exactly as stored. Concretely: the revoke
writer stores a fresh row with `hasAccess = false` and stored status
`canceled`, and `checkEntitlement` on that fresh row returns no
subscription fields at all, so the stored status is not returned. -/
theorem fresh_hit_not_exactly_as_stored_counterexample :
    revokeEntitlementFromSubscription 0 "t" revokedData revokedSub emptyStore =
      .ok revokedStore ∧
    getEntitlementCache revokedStore "t" "p1" "u1" = some revokedRow ∧
    revokedRow.status = some "canceled" ∧
    (checkEntitlement 30 (.error "down") true revokedStore "t" "p1" "u1" "e@x").result =
      .ok { hasAccess := false, subscription := none } := by decide

/-- Claim C2, amended. For every stored row whose expiry is strictly
in the future at read time, `checkEntitlement` returns the stored
`hasAccess` verbatim, makes no billing-provider call and performs zero
store writes; when `hasAccess` is true the subscription fields are the
stored ones with absent or empty values defaulted (status to `active`,
plan code and period end to the empty string), and when `hasAccess` is
false no subscription detail is returned. On a cache miss or expired
row with a successful provider query and write-back, exactly one store
write happens. -/
theorem fresh_hit_returns_stored_decision_with_defaults (now : Nat)
    (provider : Except String StripeData) (wOk : Bool) (st : Store) (t p u e : String) :
    (∀ row, getEntitlementCache st t p u = some row → now < row.ttl →
      checkEntitlement now provider wOk st t p u e =
        { result := .ok { hasAccess := row.hasAccess
                          subscription := if row.hasAccess then
                              some { status := jsOr row.status "active"
                                     planCode := jsOr row.planCode ""
                                     currentPeriodEnd := jsOr row.currentPeriodEnd "" }
                            else none }
          store := st
          providerCalls := 0 }) ∧
    (∀ sd, cacheStale st t p u now →
      (checkEntitlement now (.ok sd) true st t p u e).store.writes = st.writes + 1) := by
  constructor
  · intro row hget hfresh
    exact check_fresh_hit now provider wOk st t p u e row hget hfresh
  · intro sd hstale
    rw [checkEntitlement_stale now (.ok sd) true st t p u e hstale, checkEntitlementSlow_ok_store]
    rfl

/-- Claim C2, witness: the amended theorem evaluated on a fresh stored
row whose optional status field is absent, with the provider down —
the call resolves from the store alone with the defaulted status. -/
theorem fresh_hit_returns_stored_decision_with_defaults_witness :
    checkEntitlement 0 (.error "down") true noStatusStore "t" "p" "u" "e" =
      { result := .ok { hasAccess := noStatusRow.hasAccess
                        subscription := if noStatusRow.hasAccess then
                            some { status := jsOr noStatusRow.status "active"
                                   planCode := jsOr noStatusRow.planCode ""
                                   currentPeriodEnd := jsOr noStatusRow.currentPeriodEnd "" }
                          else none }
        store := noStatusStore
        providerCalls := 0 } :=
  (fresh_hit_returns_stored_decision_with_defaults 0 (.error "down") true
    noStatusStore "t" "p" "u" "e").1 noStatusRow (by decide) (by decide)

/-- Claim C3. Immediately after the synchronous finalize write for a
tenant, product and user id (or customer email fallback), the store
holds a fresh row with `hasAccess = true` for that key, and a
`checkEntitlement` call with the same identifiers within the 5-minute
window resolves `hasAccess = true` purely from the store: zero
provider calls, store unchanged, for any provider state whatsoever. -/
theorem finalize_write_gives_immediate_store_hit (now now2 : Nat)
    (provider : Except String StripeData) (wOk : Bool) (st : Store)
    (t p email planCode : String) (uid : Option String) (sub : CreatedSubscription)
    (h : now2 < now + ACTIVE_TTL) :
    (∃ row, getEntitlementCache (finalizeEntitlementWrite now t p uid email planCode sub st)
        t p (jsOr uid email) = some row ∧ row.hasAccess = true ∧ now2 < row.ttl) ∧
    (checkEntitlement now2 provider wOk (finalizeEntitlementWrite now t p uid email planCode sub st)
        t p (jsOr uid email) email).providerCalls = 0 ∧
    (checkEntitlement now2 provider wOk (finalizeEntitlementWrite now t p uid email planCode sub st)
        t p (jsOr uid email) email).store =
      finalizeEntitlementWrite now t p uid email planCode sub st ∧
    ∃ r, (checkEntitlement now2 provider wOk
        (finalizeEntitlementWrite now t p uid email planCode sub st)
        t p (jsOr uid email) email).result = .ok r ∧ r.hasAccess = true := by
  unfold finalizeEntitlementWrite
  have hget := getEntitlementCache_set_same st
    { tenantProductKey := t ++ "#" ++ p
      userId := jsOr uid email
      hasAccess := true
      subscriptionId := some sub.id
      planCode := some planCode
      status := some sub.status
      currentPeriodEnd := some (toISOString sub.current_period_end)
      userEmail := some email
      ttl := now + ACTIVE_TTL } t p (jsOr uid email) rfl rfl
  have hc := check_fresh_hit now2 provider wOk _ t p (jsOr uid email) email _ hget h
  refine ⟨⟨_, hget, rfl, h⟩, ?_, ?_, ?_⟩
  · rw [hc]
  · rw [hc]
  · rw [hc]; exact ⟨_, rfl, rfl⟩

/-- Claim C3, witness: a concrete finalize write at time 10, checked
at time 100 with the provider down — access still resolves true from
the store. -/
theorem finalize_write_gives_immediate_store_hit_witness :
    (∃ row, getEntitlementCache
        (finalizeEntitlementWrite 10 "t1" "p1" (some "u1") "e@x" "pro" createdSub emptyStore)
        "t1" "p1" (jsOr (some "u1") "e@x") = some row ∧ row.hasAccess = true ∧ 100 < row.ttl) ∧
    (checkEntitlement 100 (.error "down") false
        (finalizeEntitlementWrite 10 "t1" "p1" (some "u1") "e@x" "pro" createdSub emptyStore)
        "t1" "p1" (jsOr (some "u1") "e@x") "e@x").providerCalls = 0 ∧
    (checkEntitlement 100 (.error "down") false
        (finalizeEntitlementWrite 10 "t1" "p1" (some "u1") "e@x" "pro" createdSub emptyStore)
        "t1" "p1" (jsOr (some "u1") "e@x") "e@x").store =
      finalizeEntitlementWrite 10 "t1" "p1" (some "u1") "e@x" "pro" createdSub emptyStore ∧
    ∃ r, (checkEntitlement 100 (.error "down") false
        (finalizeEntitlementWrite 10 "t1" "p1" (some "u1") "e@x" "pro" createdSub emptyStore)
        "t1" "p1" (jsOr (some "u1") "e@x") "e@x").result = .ok r ∧ r.hasAccess = true :=
  finalize_write_gives_immediate_store_hit 10 100 (.error "down") false emptyStore
    "t1" "p1" "e@x" "pro" (some "u1") createdSub (by decide)

/-- Claim C4. On a cache miss or expired row, a thrown provider query
propagates out of `checkEntitlement` unchanged and the store is left
untouched: the failure is never converted into a returned or cached
`hasAccess = false` decision. -/
theorem provider_failure_propagates_without_write (now : Nat) (msg : String)
    (wOk : Bool) (st : Store) (t p u e : String) (hstale : cacheStale st t p u now) :
    checkEntitlement now (.error msg) wOk st t p u e =
      { result := .error (.provider msg), store := st, providerCalls := 1 } := by
  rw [checkEntitlement_stale now (.error msg) wOk st t p u e hstale]
  rfl

/-- Claim C4, witness: a miss on the empty store with the provider
down propagates the provider error and writes nothing. -/
theorem provider_failure_propagates_without_write_witness :
    checkEntitlement 5 (.error "boom") true emptyStore "t" "p" "u" "e" =
      { result := .error (.provider "boom"), store := emptyStore, providerCalls := 1 } :=
  provider_failure_propagates_without_write 5 "boom" true emptyStore "t" "p" "u" "e" (by decide)

/-- Claim C5. On every cache-miss resolution with a successful query
and write-back, the written row satisfies
`expiresAt - now = ACTIVE_TTL` (5 minutes) when the computed
`hasAccess` is true and `expiresAt - now = INACTIVE_TTL` (1 minute)
when it is false, and exactly one store write happens. -/
theorem resolver_miss_write_ttl_selection (now : Nat) (sd : StripeData) (st : Store)
    (t p u e : String) (hstale : cacheStale st t p u now) :
    ∃ row,
      getEntitlementCache (checkEntitlement now (.ok sd) true st t p u e).store t p u = some row ∧
      row.hasAccess = (queryStripeEntitlement sd e p).1.hasAccess ∧
      row.ttl = now + (if (queryStripeEntitlement sd e p).1.hasAccess then ACTIVE_TTL
        else INACTIVE_TTL) ∧
      (checkEntitlement now (.ok sd) true st t p u e).store.writes = st.writes + 1 := by
  rw [checkEntitlement_stale now (.ok sd) true st t p u e hstale, checkEntitlementSlow_ok_store]
  exact ⟨_, getEntitlementCache_set_same st _ t p u rfl rfl, rfl, rfl, rfl⟩

/-- Claim C5, witness: a concrete miss resolution against an account
granting access to `p1`. -/
theorem resolver_miss_write_ttl_selection_witness :
    ∃ row,
      getEntitlementCache
        (checkEntitlement 0 (.ok proData) true emptyStore "t1" "p1" "u1" "e@x").store
        "t1" "p1" "u1" = some row ∧
      row.hasAccess = (queryStripeEntitlement proData "e@x" "p1").1.hasAccess ∧
      row.ttl = 0 + (if (queryStripeEntitlement proData "e@x" "p1").1.hasAccess then ACTIVE_TTL
        else INACTIVE_TTL) ∧
      (checkEntitlement 0 (.ok proData) true emptyStore "t1" "p1" "u1" "e@x").store.writes =
        emptyStore.writes + 1 :=
  resolver_miss_write_ttl_selection 0 proData emptyStore "t1" "p1" "u1" "e@x" (by decide)

/-- Claim C6, counterexample. The claim says every entitlement write
uses the 1-minute window when the written `hasAccess` is false,
explicitly including the webhook recomputation of a past-due
subscription. The webhook update path evaluated on a past-due
subscription writes `hasAccess = false` with the 5-minute window. -/
theorem webhook_pastdue_long_window_counterexample :
    updateEntitlementFromSubscription 1000 "t1" pastDueData pastDueSub emptyStore =
      .ok { rows := [pastDueRow], writes := 1 } ∧
    pastDueRow.hasAccess = false ∧
    pastDueRow.ttl = 1000 + ACTIVE_TTL ∧
    1000 + ACTIVE_TTL ≠ 1000 + INACTIVE_TTL := by decide

/-- Claim C6, amended. The resolver's miss write uses the long window
iff the written `hasAccess` is true; the finalize write always has
`hasAccess = true` with the long window; the `subscription.deleted`
webhook write always has `hasAccess = false` with the short window;
but the `subscription.created`, `subscription.updated` and
`invoice.payment_failed` webhook writes always use the long 5-minute
window, even when the written `hasAccess` is false. -/
theorem write_ttl_windows_by_writer :
    (∀ now sd st t p u e, cacheStale st t p u now →
      ∃ c, (checkEntitlement now (.ok sd) true st t p u e).store = setEntitlementCache st c ∧
        c.ttl = now + (if c.hasAccess then ACTIVE_TTL else INACTIVE_TTL)) ∧
    (∀ now t p email planCode uid sub st,
      ∃ c, finalizeEntitlementWrite now t p uid email planCode sub st =
          setEntitlementCache st c ∧
        c.hasAccess = true ∧ c.ttl = now + ACTIVE_TTL) ∧
    (∀ now t sd s st st2, revokeEntitlementFromSubscription now t sd s st = .ok st2 →
      st2 = st ∨ ∃ c, st2 = setEntitlementCache st c ∧ c.hasAccess = false ∧
        c.ttl = now + INACTIVE_TTL) ∧
    (∀ now t sd s st st2, updateEntitlementFromSubscription now t sd s st = .ok st2 →
      st2 = st ∨ ∃ c, st2 = setEntitlementCache st c ∧ c.ttl = now + ACTIVE_TTL) := by
  refine ⟨?_, ?_, ?_, ?_⟩
  · intro now sd st t p u e hstale
    rw [checkEntitlement_stale now (.ok sd) true st t p u e hstale, checkEntitlementSlow_ok_store]
    exact ⟨_, rfl, rfl⟩
  · intro now t p email planCode uid sub st
    exact ⟨_, rfl, rfl, rfl⟩
  · exact fun now t sd s st st2 h => revoke_ok_cases now t sd s st st2 h
  · exact fun now t sd s st st2 h => update_ok_cases now t sd s st st2 h

/-- Claim C6, witness: the amended webhook-update part evaluated on
the concrete past-due subscription. -/
theorem write_ttl_windows_by_writer_witness :
    updateEntitlementFromSubscription 1000 "t1" pastDueData pastDueSub emptyStore =
      .ok { rows := [pastDueRow], writes := 1 } ∧
    (({ rows := [pastDueRow], writes := 1 } : Store) = emptyStore ∨
      ∃ c, ({ rows := [pastDueRow], writes := 1 } : Store) = setEntitlementCache emptyStore c ∧
        c.ttl = 1000 + ACTIVE_TTL) :=
  ⟨by decide,
   write_ttl_windows_by_writer.2.2.2 1000 "t1" pastDueData pastDueSub emptyStore
     { rows := [pastDueRow], writes := 1 } (by decide)⟩

/-- Claim C7, counterexample. The claim says a failed write-back does
not prevent returning the freshly computed decision. Concretely: the
query computes `hasAccess = true`, yet when the store write throws the
call surfaces the store error instead of the decision. -/
theorem writeback_failure_not_returned_counterexample :
    (queryStripeEntitlement proData "e@x" "p1").1.hasAccess = true ∧
    (checkEntitlement 0 (.ok proData) false emptyStore "t1" "p1" "u1" "e@x").result =
      .error .storeWrite := by decide

/-- Claim C7, amended. When the write-back to the entitlement store
throws after a successful provider query, `checkEntitlement`
propagates the store failure to its caller — the freshly computed
decision is not returned — and the store is left unchanged. -/
theorem writeback_failure_propagates (now : Nat) (sd : StripeData) (st : Store)
    (t p u e : String) (hstale : cacheStale st t p u now) :
    (checkEntitlement now (.ok sd) false st t p u e).result = .error .storeWrite ∧
    (checkEntitlement now (.ok sd) false st t p u e).store = st := by
  rw [checkEntitlement_stale now (.ok sd) false st t p u e hstale]
  exact ⟨rfl, rfl⟩

/-- Claim C7, witness: the amended theorem at a concrete miss with a
granting provider and a failing store write. -/
theorem writeback_failure_propagates_witness :
    (checkEntitlement 0 (.ok proData) false emptyStore "t1" "p1" "u1" "e@x").result =
      .error .storeWrite ∧
    (checkEntitlement 0 (.ok proData) false emptyStore "t1" "p1" "u1" "e@x").store = emptyStore :=
  writeback_failure_propagates 0 proData emptyStore "t1" "p1" "u1" "e@x" (by decide)

/-- Claim C8. Delivering the same event id twice with a configured
secret and valid signatures: the second delivery changes no state and
returns 200 marked duplicate, exactly one audit record keyed
`tenant#eventId` exists after both deliveries, and at most one
entitlement write occurred. -/
theorem webhook_duplicate_delivery_idempotent (now1 now2 : Nat) (t : String)
    (sd1 sd2 : StripeData) (ev : StripeEvent) (w : WebhookWorld)
    (hfresh : getWebhookAudit w.audits t ev.id = none) :
    ((webhookHandler now2 t true true sd2 ev (webhookHandler now1 t true true sd1 ev w).2).2 =
      (webhookHandler now1 t true true sd1 ev w).2) ∧
    ((webhookHandler now2 t true true sd2 ev (webhookHandler now1 t true true sd1 ev w).2).1 =
      { status := 200, received := true, duplicate := true }) ∧
    (((webhookHandler now1 t true true sd1 ev w).2.audits.filter
        (fun a => a.tenantEventKey == t ++ "#" ++ ev.id)).length = 1) ∧
    ((webhookHandler now1 t true true sd1 ev w).2.store.writes ≤ w.store.writes + 1) := by
  obtain ⟨rec, st2, h1, hkey, hw⟩ := webhookHandler_fresh now1 t sd1 ev w hfresh
  have hdup : getWebhookAudit (rec :: w.audits) t ev.id = some rec := by
    unfold getWebhookAudit
    simp [List.find?, hkey]
  have h2 : webhookHandler now2 t true true sd2 ev
      ({ store := st2, audits := rec :: w.audits } : WebhookWorld) =
      ({ status := 200, received := true, duplicate := true },
       ({ store := st2, audits := rec :: w.audits } : WebhookWorld)) := by
    unfold webhookHandler
    simp [hdup]
  refine ⟨?_, ?_, ?_, ?_⟩
  · rw [h1]
    show (webhookHandler now2 t true true sd2 ev
      ({ store := st2, audits := rec :: w.audits } : WebhookWorld)).2 =
      ({ store := st2, audits := rec :: w.audits } : WebhookWorld)
    rw [h2]
  · rw [h1]
    show (webhookHandler now2 t true true sd2 ev
      ({ store := st2, audits := rec :: w.audits } : WebhookWorld)).1 =
      { status := 200, received := true, duplicate := true }
    rw [h2]
  · rw [h1]
    show ((rec :: w.audits).filter
      (fun a => a.tenantEventKey == t ++ "#" ++ ev.id)).length = 1
    have hnil : w.audits.filter (fun a => a.tenantEventKey == t ++ "#" ++ ev.id) = [] :=
      find?_none_filter_nil _ _ hfresh
    rw [List.filter_cons_of_pos (by simp [hkey]), hnil]
    rfl
  · rw [h1]
    exact hw

/-- Claim C8, witness: two deliveries of the same concrete event to a
fresh world. -/
theorem webhook_duplicate_delivery_idempotent_witness :
    ((webhookHandler 20 "t1" true true pastDueData createdEvent
        (webhookHandler 10 "t1" true true pastDueData createdEvent emptyWorld).2).2 =
      (webhookHandler 10 "t1" true true pastDueData createdEvent emptyWorld).2) ∧
    ((webhookHandler 20 "t1" true true pastDueData createdEvent
        (webhookHandler 10 "t1" true true pastDueData createdEvent emptyWorld).2).1 =
      { status := 200, received := true, duplicate := true }) ∧
    (((webhookHandler 10 "t1" true true pastDueData createdEvent emptyWorld).2.audits.filter
        (fun a => a.tenantEventKey == "t1" ++ "#" ++ createdEvent.id)).length = 1) ∧
    ((webhookHandler 10 "t1" true true pastDueData createdEvent emptyWorld).2.store.writes ≤
      emptyWorld.store.writes + 1) :=
  webhook_duplicate_delivery_idempotent 10 20 "t1" pastDueData pastDueData createdEvent
    emptyWorld (by decide)

/-- Claim C9. The claim states that updating or deleting a tenant's
billing credentials invalidates the cached per-tenant Stripe client.
The code evaluated at a concrete input shows otherwise: after a client
is cached from the old key, both credentials operations leave the
client cache untouched (`invalidateStripeClient` exists but has no
call site), so an in-window `getStripeClient` still returns the client
built from the old key; calling the unused invalidation hook would
have rebuilt it from the new key. -/
theorem credentials_change_leaves_cached_client :
    getStripeClient 0 [("t1", "sk_old")] { entries := [] } "t1" =
      .ok (oldClient, oldClientCache) ∧
    setCredentialsEffect "t1" "sk_new" [("t1", "sk_old")] oldClientCache =
      ([("t1", "sk_new")], oldClientCache) ∧
    getStripeClient 1000 [("t1", "sk_new")] oldClientCache "t1" =
      .ok (oldClient, oldClientCache) ∧
    oldClient.secretKey = "sk_old" ∧
    deleteCredentialsEffect "t1" [("t1", "sk_old")] oldClientCache = ([], oldClientCache) ∧
    getStripeClient 1000 [("t1", "sk_new")]
        (invalidateStripeClient oldClientCache "t1") "t1" =
      .ok ({ secretKey := "sk_new", expiry := 1000 + CACHE_TTL },
           { entries := [("t1", { secretKey := "sk_new", expiry := 1000 + CACHE_TTL })] }) := by
  decide

/-- Claim C10. When processing a verified, non-duplicate event throws,
the handler still returns 200 with `received = true`, leaves the store
unchanged, writes the audit record for `(tenant, eventId)` with
`result = "error"`, and a later redelivery of the same event id is
short-circuited as a duplicate with no state change — the failed event
is never reprocessed. -/
theorem webhook_processing_error_still_audited (now1 now2 : Nat) (t msg : String)
    (sd1 sd2 : StripeData) (ev : StripeEvent) (w : WebhookWorld)
    (hfresh : getWebhookAudit w.audits t ev.id = none)
    (herr : processWebhookEvent now1 t sd1 ev w.store = .error msg) :
    ((webhookHandler now1 t true true sd1 ev w).1 = { status := 200, received := true }) ∧
    ((webhookHandler now1 t true true sd1 ev w).2.store = w.store) ∧
    (getWebhookAudit (webhookHandler now1 t true true sd1 ev w).2.audits t ev.id =
      some { tenantEventKey := t ++ "#" ++ ev.id
             tenantId := t
             eventType := ev.type
             processedAt := toISOString now1
             result := "error"
             errorMessage := some msg
             ttl := now1 + AUDIT_TTL }) ∧
    ((webhookHandler now2 t true true sd2 ev (webhookHandler now1 t true true sd1 ev w).2).1 =
      { status := 200, received := true, duplicate := true }) ∧
    ((webhookHandler now2 t true true sd2 ev (webhookHandler now1 t true true sd1 ev w).2).2 =
      (webhookHandler now1 t true true sd1 ev w).2) := by
  have hnone : w.audits.find? (fun x => x.tenantEventKey == t ++ "#" ++ ev.id) = none := hfresh
  have h1 : webhookHandler now1 t true true sd1 ev w =
      ({ status := 200, received := true },
       { store := w.store
         audits := { tenantEventKey := t ++ "#" ++ ev.id
                     tenantId := t
                     eventType := ev.type
                     processedAt := toISOString now1
                     result := "error"
                     errorMessage := some msg
                     ttl := now1 + AUDIT_TTL } :: w.audits }) := by
    unfold webhookHandler
    rw [hfresh]
    simp only [herr, createWebhookAudit, hnone]
    rfl
  have hdup : getWebhookAudit
      ({ tenantEventKey := t ++ "#" ++ ev.id
         tenantId := t
         eventType := ev.type
         processedAt := toISOString now1
         result := "error"
         errorMessage := some msg
         ttl := now1 + AUDIT_TTL } :: w.audits) t ev.id =
      some { tenantEventKey := t ++ "#" ++ ev.id
             tenantId := t
             eventType := ev.type
             processedAt := toISOString now1
             result := "error"
             errorMessage := some msg
             ttl := now1 + AUDIT_TTL } := by
    unfold getWebhookAudit
    simp [List.find?]
  have h2 : webhookHandler now2 t true true sd2 ev
      ({ store := w.store
         audits := { tenantEventKey := t ++ "#" ++ ev.id
                     tenantId := t
                     eventType := ev.type
                     processedAt := toISOString now1
                     result := "error"
                     errorMessage := some msg
                     ttl := now1 + AUDIT_TTL } :: w.audits } : WebhookWorld) =
      ({ status := 200, received := true, duplicate := true },
       ({ store := w.store
          audits := { tenantEventKey := t ++ "#" ++ ev.id
                      tenantId := t
                      eventType := ev.type
                      processedAt := toISOString now1
                      result := "error"
                      errorMessage := some msg
                      ttl := now1 + AUDIT_TTL } :: w.audits } : WebhookWorld)) := by
    unfold webhookHandler
    simp [hdup]
  rw [h1]
  exact ⟨rfl, rfl, hdup, by rw [h2], by rw [h2]⟩

/-- Claim C10, witness: a concrete event whose processing throws (its
customer id resolves to nothing), delivered twice. -/
theorem webhook_processing_error_still_audited_witness :
    ((webhookHandler 10 "t1" true true pastDueData orphanEvent emptyWorld).1 =
      { status := 200, received := true }) ∧
    ((webhookHandler 10 "t1" true true pastDueData orphanEvent emptyWorld).2.store =
      emptyWorld.store) ∧
    (getWebhookAudit
        (webhookHandler 10 "t1" true true pastDueData orphanEvent emptyWorld).2.audits
        "t1" orphanEvent.id =
      some { tenantEventKey := "t1" ++ "#" ++ orphanEvent.id
             tenantId := "t1"
             eventType := orphanEvent.type
             processedAt := toISOString 10
             result := "error"
             errorMessage := some "No such customer: cus_missing"
             ttl := 10 + AUDIT_TTL }) ∧
    ((webhookHandler 20 "t1" true true pastDueData orphanEvent
        (webhookHandler 10 "t1" true true pastDueData orphanEvent emptyWorld).2).1 =
      { status := 200, received := true, duplicate := true }) ∧
    ((webhookHandler 20 "t1" true true pastDueData orphanEvent
        (webhookHandler 10 "t1" true true pastDueData orphanEvent emptyWorld).2).2 =
      (webhookHandler 10 "t1" true true pastDueData orphanEvent emptyWorld).2) :=
  webhook_processing_error_still_audited 10 20 "t1" "No such customer: cus_missing"
    pastDueData pastDueData orphanEvent emptyWorld (by decide) (by decide)

end Paywall
